import Mathlib

/-!
# Verification of the suuret_muinaiset firmware core

Shallow embedding of the leader/follower control firmware found in
`src/arduino/teensy_code` (files `mySysCtrl.h`, `ledzCtrl.h` and the final
revision of `teensy_code.ino`, lines 1191-1571).  Pure data is modelled
directly; the stateful C code is modelled as explicit state passing over
`SysState`, and every externally observable side effect (relay writes, PWM
writes, player start/stop, serial transmissions, LED writes, counter
assignments) is recorded as an `Event` in an output trace.  C `int`
variables are modelled as `Int`, `float` as `ℚ`, millisecond clocks as `Nat`.
-/

namespace SuuretMuinaiset

/-! ## Constants (final revision of `teensy_code.ino`) -/

/-- `const int START_HOUR = 8` (teensy_code.ino:1254). -/
def START_HOUR : Nat := 8

/-- `const int END_HOUR = 20` (teensy_code.ino:1255). -/
def END_HOUR : Nat := 20

/-- `const int MSG_BUFFER_SIZE = 512` (teensy_code.ino:1270). -/
def MSG_BUFFER_SIZE : Nat := 512

/-- Command characters, from the `#define CMD_...` table in `mySysCtrl.h`. -/
def CMD_HELP : Char := 'h'

def CMD_REPORT : Char := 'r'

def CMD_WAKEUP : Char := 'w'

def CMD_PLAY : Char := 'p'

def CMD_SLEEP : Char := 's'

def CMD_STOP : Char := '!'

def CMD_REPLAY : Char := 'z'

def CMD_VOL_UP : Char := '+'

def CMD_VOL_DOWN : Char := '-'

def CMD_PWM_UP : Char := '>'

def CMD_PWM_DOWN : Char := '<'

def CMD_LED_1 : Char := '1'

def CMD_LED_2 : Char := '2'

def CMD_LED_3 : Char := '3'

def CMD_LED_4 : Char := '4'

/-! ## Observable events

Each constructor records one side-effecting call of the firmware:
`digitalWrite` on a relay pin, `analogWrite`/`digitalWrite` on the PWM pin,
`wavPlayer.play`/`wavPlayer.stop`, `Serial3` transmissions, `digitalWrite`
on a status LED, and assignments to `trackIteration`. -/

inductive Event where
  /-- `digitalWrite(REL_n, level)`: `rel = 1` is the amplifier relay
  `REL_1` (pin 17), `rel = 2` the speaker relay `REL_2` (pin 16). -/
  | relayWrite (rel : Nat) (level : Bool)
  /-- `analogWrite(PWM_PIN, v)` (`digitalWrite(PWM_PIN, LOW)` is `v = 0`). -/
  | pwmWrite (v : Int)
  /-- `wavPlayer.play(FILE_NAME)`. -/
  | playerPlay
  /-- `wavPlayer.stop()`. -/
  | playerStop
  /-- `sendSerialCommand(c)`: one command byte on Serial3. -/
  | sendCmd (c : Char)
  /-- `sendStatusToLeader()`: a `:STATUS|...` frame on Serial3. -/
  | sendStatus
  /-- `Serial3.end(); delay(250); Serial3.begin(9600)` (query arbitration). -/
  | serialRestart
  /-- `digitalWrite(LED_ARRAY[i], level)` for a status LED, `i < 4`. -/
  | ledWrite (i : Nat) (level : Bool)
  /-- assignment to `trackIteration`. -/
  | iterSet (n : Nat)
  deriving Repr, DecidableEq

/-! ## System state

The global mutable variables of the firmware, plus the two relay output
latches (the electrical state of pins `REL_1`/`REL_2`) and the PWM output
latch. -/

structure SysState where
  /-- `PLAYER_ID`: 0 = LONG (leader), 1 = SMALL, 2 = SEASHELL. -/
  playerId : Nat
  /-- electrical level of the amplifier relay pin `REL_1`. -/
  rel1 : Bool
  /-- electrical level of the speaker relay pin `REL_2`. -/
  rel2 : Bool
  /-- `bool systemAwake`. -/
  systemAwake : Bool
  /-- `wavPlayer.isPlaying()`: whether the audio engine is playing. -/
  wavPlaying : Bool
  /-- `bool playbackStatus`. -/
  playbackStatus : Bool
  /-- `int trackIteration`. -/
  trackIteration : Nat
  /-- `float audioVolume`. -/
  audioVolume : ℚ
  /-- `int rangePWM`. -/
  rangePWM : Int
  /-- last value driven on `PWM_PIN`. -/
  pwmOut : Int
  /-- electrical level of status LED 1 (`LED_ARRAY[0]`). -/
  led1 : Bool
  /-- electrical level of status LED 2 (`LED_ARRAY[1]`). -/
  led2 : Bool
  /-- electrical level of status LED 3 (`LED_ARRAY[2]`). -/
  led3 : Bool
  /-- electrical level of status LED 4 (`LED_ARRAY[3]`). -/
  led4 : Bool
  /-- `bool knobCtrl` (false in the source, never changed). -/
  knobCtrl : Bool
  /-- reference time of the self-resetting `elapsedMillis pwmTimer`:
  the timer reads `now - pwmTimerStart`. -/
  pwmTimerStart : Nat
  deriving Repr, DecidableEq

/-- The state right after `setup()` (teensy_code.ino:1290-1379): both relay
pins written LOW, LEDs LOW, PWM LOW, `systemAwake = false`,
`playbackStatus = false`, `trackIteration = 0`, `audioVolume = 0.8`,
`rangePWM = 255`, `knobCtrl = false`. -/
def bootState (pid : Nat) : SysState :=
  { playerId := pid
    rel1 := false
    rel2 := false
    systemAwake := false
    wavPlaying := false
    playbackStatus := false
    trackIteration := 0
    audioVolume := 4 / 5
    rangePWM := 255
    pwmOut := 0
    led1 := false
    led2 := false
    led3 := false
    led4 := false
    knobCtrl := false
    pwmTimerStart := 0 }

/-! ## Relay sequencer (`mySysCtrl.h:291-325`) -/

/-- `startupSequence()` (mySysCtrl.h:291-304): if the system is asleep,
assert the amplifier relay, wait, assert the speaker relay, wait, mark the
system awake and reset `trackIteration`; otherwise do nothing. -/
def startupSequence (s : SysState) : SysState × List Event :=
  if !s.systemAwake then
    ({ s with rel1 := true
              rel2 := true
              systemAwake := true
              trackIteration := 0 },
     [Event.relayWrite 1 true, Event.relayWrite 2 true, Event.iterSet 0])
  else
    (s, [])

/-- `shutDownSequence()` (mySysCtrl.h:309-325): if the system is awake,
stop the player, drive the PWM pin low, deassert the speaker relay, wait,
deassert the amplifier relay, wait, mark the system asleep; otherwise do
nothing. -/
def shutDownSequence (s : SysState) : SysState × List Event :=
  if s.systemAwake then
    ({ s with wavPlaying := false
              pwmOut := 0
              rel2 := false
              rel1 := false
              systemAwake := false },
     [Event.playerStop, Event.pwmWrite 0,
      Event.relayWrite 2 false, Event.relayWrite 1 false])
  else
    (s, [])

/-- `playAudio()` (mySysCtrl.h:331-351): start playback of the bound file,
increment `trackIteration`, set `playbackStatus`. -/
def playAudio (s : SysState) : SysState × List Event :=
  ({ s with wavPlaying := true
            trackIteration := s.trackIteration + 1
            playbackStatus := true },
   [Event.playerPlay, Event.iterSet (s.trackIteration + 1)])

/-! ## Status LED encoder (`ledzCtrl.h`) -/

/-- `setLedPattern(v1, v2, v3, v4)` (ledzCtrl.h:27-33): write the four
status-LED outputs `LED_ARRAY[0..3]` in order. -/
def setLedPattern (v1 v2 v3 v4 : Bool) (s : SysState) : SysState × List Event :=
  ({ s with led1 := v1, led2 := v2, led3 := v3, led4 := v4 },
   [Event.ledWrite 0 v1, Event.ledWrite 1 v2, Event.ledWrite 2 v3,
    Event.ledWrite 3 v4])

/-- `displayBinaryCode(code)` (ledzCtrl.h:39-53): if `0 <= code <= 15`,
compute the four bits by the loop `for (i = 3; i >= 0; i--) { bits[i] =
code & 1; code >>= 1; }` and call `setLedPattern(bits[0..3])`; otherwise
only print a complaint (no LED write). -/
def displayBinaryCode (code : Int) (s : SysState) : SysState × List Event :=
  if 0 ≤ code ∧ code ≤ 15 then
    let c0 : Nat := code.toNat
    let b3 : Bool := c0 % 2 = 1
    let c1 : Nat := c0 / 2
    let b2 : Bool := c1 % 2 = 1
    let c2 : Nat := c1 / 2
    let b1 : Bool := c2 % 2 = 1
    let c3 : Nat := c2 / 2
    let b0 : Bool := c3 % 2 = 1
    setLedPattern b0 b1 b2 b3 s
  else
    (s, [])

/-! ## Single-character command dispatch (`mySysCtrl.h:420-541`) -/

/-- `processCommand(cmd)` (mySysCtrl.h:420-541).  Returns the new state,
the trace of side effects, and the C function's boolean result. -/
def processCommand (c : Char) (s : SysState) : SysState × List Event × Bool :=
  if c = CMD_HELP then
    (s, [], true)
  else if c = CMD_REPORT then
    (s, [], true)
  else if c = CMD_WAKEUP then
    if !s.systemAwake then
      let r := startupSequence s
      (r.1, r.2, true)
    else
      (s, [], true)
  else if c = CMD_SLEEP then
    if s.systemAwake then
      let r := shutDownSequence s
      (r.1, r.2, true)
    else
      (s, [], true)
  else if c = CMD_PLAY then
    let r := playAudio s
    (r.1, r.2, true)
  else if c = CMD_REPLAY then
    let r := playAudio { s with wavPlaying := false }
    (r.1, Event.playerStop :: r.2, true)
  else if c = CMD_STOP then
    ({ s with wavPlaying := false }, [Event.playerStop], true)
  else if c = CMD_VOL_UP then
    let v := s.audioVolume + 1 / 10
    ({ s with audioVolume := if v > 1 then 1 else v }, [], true)
  else if c = CMD_VOL_DOWN then
    let v := s.audioVolume - 1 / 10
    ({ s with audioVolume := if v < 0 then 0 else v }, [], true)
  else if c = CMD_PWM_UP then
    let v := s.rangePWM + 25
    ({ s with rangePWM := if v > 255 then 255 else v }, [], true)
  else if c = CMD_PWM_DOWN then
    let v := s.rangePWM - 25
    ({ s with rangePWM := if v < 0 then 0 else v }, [], true)
  else if c = CMD_LED_1 then
    ({ s with led1 := !s.led1 }, [Event.ledWrite 0 (!s.led1)], true)
  else if c = CMD_LED_2 then
    ({ s with led2 := !s.led2 }, [Event.ledWrite 1 (!s.led2)], true)
  else if c = CMD_LED_3 then
    ({ s with led3 := !s.led3 }, [Event.ledWrite 2 (!s.led3)], true)
  else if c = CMD_LED_4 then
    ({ s with led4 := !s.led4 }, [Event.ledWrite 3 (!s.led4)], true)
  else
    (s, [], false)

/-! ## C-library string helpers

`processMessage` uses `strtok`, `atoi`, `atof` and `strtoul` from the C
library.  They are collaborator functions (cstdlib, not repository code);
they are modelled here on the decimal token shapes the firmware produces:
`strtok` with delimiter set `"|"` yields the maximal nonempty chunks
between `'|'` characters, `atoi`/`strtoul` read an optional sign followed
by a decimal-digit prefix, `atof` reads `[-]digits[.digits]` as an exact
rational. -/

/-- Accumulate the decimal value of a digit prefix (stops at the first
non-digit, like `atoi`). -/
def digitsVal : List Char → Nat → Nat
  | [], acc => acc
  | c :: rest, acc =>
    if c.isDigit then digitsVal rest (acc * 10 + (c.toNat - 48)) else acc

/-- `atoi` on a token: optional `'-'`, then a decimal-digit prefix. -/
def atoi (l : List Char) : Int :=
  match l with
  | '-' :: rest => -(digitsVal rest 0 : Int)
  | _ => (digitsVal l 0 : Int)

/-- `strtoul(token, NULL, 10)` on a token: a decimal-digit prefix. -/
def strtoulDec (l : List Char) : Nat := digitsVal l 0

/-- `atof` on a token: optional `'-'`, integer digits, optional `'.'` and
fraction digits, read as an exact rational. -/
def atof (l : List Char) : ℚ :=
  let signed : Bool × List Char :=
    match l with
    | '-' :: rest => (true, rest)
    | _ => (false, l)
  let intPart := signed.2.takeWhile Char.isDigit
  let after := signed.2.drop intPart.length
  let fracPart :=
    match after with
    | '.' :: r => r.takeWhile Char.isDigit
    | _ => []
  let mag : ℚ :=
    (digitsVal intPart 0 : ℚ) +
      (digitsVal fracPart 0 : ℚ) / ((10 : ℚ) ^ fracPart.length)
  if signed.1 then -mag else mag

/-- Successive `strtok(_, "|")` calls: the maximal nonempty chunks between
`'|'` delimiters. -/
def tokenize : List Char → List Char → List (List Char)
  | [], cur => if cur = [] then [] else [cur.reverse]
  | c :: rest, cur =>
    if c = '|' then
      if cur = [] then tokenize rest []
      else cur.reverse :: tokenize rest []
    else
      tokenize rest (c :: cur)

/-! ## STATUS message parsing (`mySysCtrl.h:604-657`) -/

/-- The fields the leader extracts from a follower `STATUS|...` message.
Each field is `none` when `strtok` returned `NULL` before reaching it (the
source stops parsing at the first missing field). -/
structure StatusReport where
  followerId : Option Int
  followerTemp : Option ℚ
  followerAwake : Option Bool
  followerPlaying : Option Bool
  followerPosition : Option Nat
  followerLength : Option Nat
  deriving Repr, DecidableEq

/-- The leader's field-by-field parse of a message whose content starts
with `"STATUS|"` (mySysCtrl.h:604-657): tokenize `content + 7` on `'|'`,
then `atoi`, `atof`, `atoi == 1`, `atoi == 1`, `strtoul`, `strtoul`, each
only if the corresponding token exists. -/
def parseStatus (content : List Char) : StatusReport :=
  let ts := tokenize (content.drop 7) []
  { followerId := (ts[0]?).map atoi
    followerTemp := (ts[1]?).map atof
    followerAwake := (ts[2]?).map (fun t => atoi t = 1)
    followerPlaying := (ts[3]?).map (fun t => atoi t = 1)
    followerPosition := (ts[4]?).map strtoulDec
    followerLength := (ts[5]?).map strtoulDec }

/-- Whether field `i` (in source parse order) of a parsed status report is
absent. -/
def statusFieldMissing (r : StatusReport) : Fin 6 → Bool
  | 0 => r.followerId.isNone
  | 1 => r.followerTemp.isNone
  | 2 => r.followerAwake.isNone
  | 3 => r.followerPlaying.isNone
  | 4 => r.followerPosition.isNone
  | 5 => r.followerLength.isNone

/-! ## Framed message dispatch (`mySysCtrl.h:548-742`) -/

/-- `processMessage(msg)` (mySysCtrl.h:548-742): strip a leading `':'`,
reject the empty message, then match the content against the verb table;
`STATUS|`-prefixed content is parsed and logged (no state change); the
`"small"`/`"seashell"` queries answer or temporarily disable Serial3
depending on `PLAYER_ID`.  The source function falls off its end without a
return value when a `"small"`/`"seashell"` query reaches the leader; that
unspecified boolean is modelled as `false`. -/
def msgContent (msg : List Char) : List Char :=
  if msg.take 1 = [':'] then msg.drop 1 else msg

def processMessage (msg : List Char) (s : SysState) : SysState × List Event × Bool :=
  let content := msgContent msg
  if content = [] then
    (s, [], false)
  else if content = "help".data then
    processCommand CMD_HELP s
  else if content = "report".data then
    processCommand CMD_REPORT s
  else if content = "seashell".data then
    if s.playerId = 2 then
      (s, [Event.sendStatus], true)
    else if s.playerId = 1 then
      (s, [Event.serialRestart], true)
    else
      (s, [], false)
  else if content = "small".data then
    if s.playerId = 1 then
      (s, [Event.sendStatus], true)
    else if s.playerId = 2 then
      (s, [Event.serialRestart], true)
    else
      (s, [], false)
  else if content.take 7 = "STATUS|".data then
    (s, [], true)
  else if content = "wakeup".data then
    processCommand CMD_WAKEUP s
  else if content = "sleep".data then
    processCommand CMD_SLEEP s
  else if content = "play".data then
    processCommand CMD_PLAY s
  else if content = "stop".data then
    processCommand CMD_STOP s
  else if content = "replay".data then
    processCommand CMD_REPLAY s
  else if content = "volup".data then
    processCommand CMD_VOL_UP s
  else if content = "voldown".data then
    processCommand CMD_VOL_DOWN s
  else if content = "pwmup".data then
    processCommand CMD_PWM_UP s
  else if content = "pwmdown".data then
    processCommand CMD_PWM_DOWN s
  else if content = "led1".data then
    processCommand CMD_LED_1 s
  else if content = "led2".data then
    processCommand CMD_LED_2 s
  else if content = "led3".data then
    processCommand CMD_LED_3 s
  else if content = "led4".data then
    processCommand CMD_LED_4 s
  else
    (s, [], false)

/-! ## Framed message reception -/

/-- The accumulation loop shared by `receiveSerialMessage`
(mySysCtrl.h:760-777) and `checkUsbMessages` (mySysCtrl.h:876-895): while
the message is not complete and `index < MSG_BUFFER_SIZE - 1`, read the
next byte; `'\n'`/`'\r'` end the message unstored, `';'` is stored and
ends the message, anything else is stored.  Exhausting the input models
"no more bytes available" (respectively the 250 ms timeout).  Returns the
list of buffer writes `(index, char)` made by the loop together with the
final value of `index`. -/
def accumLoop : List Char → Nat → List (Nat × Char) × Nat
  | input, idx =>
    if MSG_BUFFER_SIZE - 1 ≤ idx then
      ([], idx)
    else
      match input with
      | [] => ([], idx)
      | c :: rest =>
        if c = '\n' ∨ c = '\r' then
          ([], idx)
        else if c = ';' then
          ([(idx, c)], idx + 1)
        else
          let r := accumLoop rest (idx + 1)
          ((idx, c) :: r.1, r.2)

/-- Replay a list of buffer writes on top of a previous buffer image
(index `i` holds the last write to `i`, else the old byte).  The source
buffer is `memset` to 0 first, so the old byte is `'\x00'`. -/
def bufferAfter (ws : List (Nat × Char)) (i : Nat) : Char :=
  match ws.reverse.find? (fun w => w.1 = i) with
  | some w => w.2
  | none => Char.ofNat 0

/-- `receiveSerialMessage()` (mySysCtrl.h:747-786), applied to the bytes
available on Serial3: clear the buffer, store the first byte (the peeked
`':'`), run the accumulation loop, null-terminate, and dispatch the buffer
to `processMessage`.  Returns the result of the dispatch. -/
def receiveSerialMessage (input : List Char) (s : SysState) :
    SysState × List Event × Bool :=
  match input with
  | [] => processMessage [] s
  | c :: rest =>
    let acc := accumLoop rest 1
    let buffer := c :: (acc.1.map Prod.snd)
    processMessage buffer s

/-- The buffer-building phase of `checkUsbMessages()` (mySysCtrl.h:850-918)
applied to the bytes available on USB serial: if the first byte is not
`':'` nothing happens; otherwise store `':'` at index 0, run the
accumulation loop from index 1, and write the null terminator at the final
index.  Returns every buffer write `(index, byte)` made after the `memset`,
paired with `true` iff the buffer was dispatched to `processMessage`. -/
def checkUsbMessagesWrites (input : List Char) : List (Nat × Char) × Bool :=
  match input with
  | [] => ([], false)
  | c :: rest =>
    if c = ':' then
      let acc := accumLoop rest 1
      (((0, ':') :: acc.1) ++ [(acc.2, Char.ofNat 0)], true)
    else
      ([], false)

/-! ## Schedule-driven wake controller (`mySysCtrl.h:925-980`) -/

/-- Whether the hour is inside the active window:
`currentHour >= START_HOUR && currentHour < END_HOUR`
(mySysCtrl.h:953). -/
def isActiveHour (hour : Nat) : Bool :=
  decide (START_HOUR ≤ hour) && decide (hour < END_HOUR)

/-- The due leader schedule check inside `statusUpdates()`
(mySysCtrl.h:935-974): compute `isActive` from the current hour; when it
differs from `lastActiveState`, record the new value and either (if active
and asleep) send `CMD_WAKEUP`, run `startupSequence`, display code 15, or
(if inactive and awake) send `CMD_SLEEP` and run `shutDownSequence`.
Returns the new state, the new `lastActiveState`, and the event trace. -/
def scheduleCheck (hour : Nat) (lastActive : Bool) (s : SysState) :
    SysState × Bool × List Event :=
  let isActive := isActiveHour hour
  if isActive ≠ lastActive then
    if isActive then
      if !s.systemAwake then
        let r1 := startupSequence s
        let r2 := displayBinaryCode 15 r1.1
        (r2.1, isActive, Event.sendCmd CMD_WAKEUP :: (r1.2 ++ r2.2))
      else
        (s, isActive, [])
    else
      if s.systemAwake then
        let r1 := shutDownSequence s
        (r1.1, isActive, Event.sendCmd CMD_SLEEP :: r1.2)
      else
        (s, isActive, [])
  else
    (s, lastActive, [])

/-! ## Envelope-to-PWM driver (`teensy_code.ino:1451-1468`) -/

/-- `writeOutPWM(pin)` (teensy_code.ino:1451-1468), one call at wall-clock
time `now` (ms): if the self-resetting `pwmTimer` has reached `period`
(= `pwmFreq`, used as a refresh period in ms), reset the timer; then, if
the analyzer has a sample `env` available, write
`int(env * rangePWM)` to the PWM output. -/
def writeOutPWM (period : Nat) (now : Nat) (avail : Bool) (env : ℚ)
    (s : SysState) : SysState × List Event :=
  if period ≤ now - s.pwmTimerStart then
    let s1 := { s with pwmTimerStart := now }
    if avail then
      let v : Int := ⌊env * (s.rangePWM : ℚ)⌋
      ({ s1 with pwmOut := v }, [Event.pwmWrite v])
    else
      (s1, [])
  else
    (s, [])

/-- Run `writeOutPWM` over a sequence of calls `(time, sampleAvailable,
sampleValue)`, collecting the PWM writes as `(time, value)` pairs. -/
def runPWM (period : Nat) (s : SysState) :
    List (Nat × Bool × ℚ) → SysState × List (Nat × Int)
  | [] => (s, [])
  | c :: rest =>
    let r1 := writeOutPWM period c.1 c.2.1 c.2.2 s
    let r2 := runPWM period r1.1 rest
    (r2.1,
     (r1.2.filterMap fun e =>
       match e with
       | Event.pwmWrite v => some (c.1, v)
       | _ => none) ++ r2.2)

/-! ## Display/PWM update ticks (`teensy_code.ino:1500-1522, 1550-1569`) -/

/-- `volumeControl()` (defined in the sibling revision
`teensy_code_LONG.ino:242-246`): read the volume knob (10-bit raw value)
and scale it to `[0,1]`. -/
def volumeControl (knobRaw : ℚ) (s : SysState) : SysState :=
  { s with audioVolume := knobRaw / 1024 }

/-- The leader's display/PWM update block (teensy_code.ino:1501-1522), run
when `updateTimer >= UPDATE_RATE`: awake and playing → PWM from envelope,
optional knob volume, code 8; awake and idle → code 2 and PWM 0; asleep →
stop any playback, code 1 and PWM 0. -/
def leaderDisplayTick (period now : Nat) (avail : Bool) (env knobRaw : ℚ)
    (s : SysState) : SysState × List Event :=
  if s.systemAwake then
    if s.wavPlaying then
      let r1 := writeOutPWM period now avail env s
      let s2 := if r1.1.knobCtrl then volumeControl knobRaw r1.1 else r1.1
      let r3 := displayBinaryCode 8 s2
      (r3.1, r1.2 ++ r3.2)
    else
      let r1 := displayBinaryCode 2 s
      ({ r1.1 with pwmOut := 0 }, r1.2 ++ [Event.pwmWrite 0])
  else
    let stopped :=
      if s.wavPlaying then
        ({ s with wavPlaying := false }, [Event.playerStop])
      else
        (s, ([] : List Event))
    let r1 := displayBinaryCode 1 stopped.1
    ({ r1.1 with pwmOut := 0 }, stopped.2 ++ r1.2 ++ [Event.pwmWrite 0])

/-- The follower's display/PWM update block (teensy_code.ino:1551-1569):
identical to the leader's except that it never reads the volume knob. -/
def followerDisplayTick (period now : Nat) (avail : Bool) (env : ℚ)
    (s : SysState) : SysState × List Event :=
  if s.systemAwake then
    if s.wavPlaying then
      let r1 := writeOutPWM period now avail env s
      let r3 := displayBinaryCode 8 r1.1
      (r3.1, r1.2 ++ r3.2)
    else
      let r1 := displayBinaryCode 2 s
      ({ r1.1 with pwmOut := 0 }, r1.2 ++ [Event.pwmWrite 0])
  else
    let stopped :=
      if s.wavPlaying then
        ({ s with wavPlaying := false }, [Event.playerStop])
      else
        (s, ([] : List Event))
    let r1 := displayBinaryCode 1 stopped.1
    ({ r1.1 with pwmOut := 0 }, stopped.2 ++ r1.2 ++ [Event.pwmWrite 0])

/-! ## Running received inputs (for the relay-ordering invariant) -/

/-- One received input: a single command byte or a framed message, as
dispatched by the `follower()`/`leader()` serial polls and the USB
console handlers. -/
inductive Input where
  | cmd (c : Char)
  | msg (m : List Char)

/-- Dispatch one received input. -/
def step (s : SysState) : Input → SysState × List Event
  | Input.cmd c =>
    let r := processCommand c s
    (r.1, r.2.1)
  | Input.msg m =>
    let r := processMessage m s
    (r.1, r.2.1)

/-- Dispatch a sequence of received inputs, concatenating the event
traces. -/
def run (s : SysState) : List Input → SysState × List Event
  | [] => (s, [])
  | i :: rest =>
    let r1 := step s i
    let r2 := run r1.1 rest
    (r2.1, r1.2 ++ r2.2)

/-! ## Relay-write traces -/

/-- Project the relay writes `(relayNumber, level)` out of an event
trace. -/
def relEvents (evs : List Event) : List (Nat × Bool) :=
  evs.filterMap fun e =>
    match e with
    | Event.relayWrite r b => some (r, b)
    | _ => none

/-- Update the pair (level of `REL_1`, level of `REL_2`) by one relay
write. -/
def relStep (st : Bool × Bool) (e : Nat × Bool) : Bool × Bool :=
  if e.1 = 1 then (e.2, st.2) else if e.1 = 2 then (st.1, e.2) else st

/-- The safety condition of one relay write against the current relay
levels: asserting the speaker relay `REL_2` requires the amplifier relay
`REL_1` to be asserted, and deasserting `REL_1` requires `REL_2` to be
deasserted. -/
def relCond (st : Bool × Bool) (e : Nat × Bool) : Bool :=
  if e.1 = 1 then (e.2 || !st.2) else if e.1 = 2 then (!e.2 || st.1) else true

/-- Whether every relay write of a trace satisfies `relCond` at the relay
levels current when it happens, starting from levels `st`. -/
def relTrace (st : Bool × Bool) : List (Nat × Bool) → Bool
  | [] => true
  | e :: rest => relCond st e && relTrace (relStep st e) rest

/-- The relay levels after a list of relay writes. -/
def applyRel (st : Bool × Bool) (l : List (Nat × Bool)) : Bool × Bool :=
  l.foldl relStep st

/-- Both relay levels mirror `systemAwake` (the quiescent-state
invariant). -/
def relInv (s : SysState) : Prop :=
  s.rel1 = s.systemAwake ∧ s.rel2 = s.systemAwake

theorem relTrace_append (l1 l2 : List (Nat × Bool)) (st : Bool × Bool) :
    relTrace st (l1 ++ l2) = (relTrace st l1 && relTrace (applyRel st l1) l2) := by
  induction l1 generalizing st with
  | nil => simp [relTrace, applyRel]
  | cons e rest ih =>
    simp only [List.cons_append, relTrace, List.append_eq]
    rw [ih]
    simp only [applyRel, List.foldl_cons, Bool.and_assoc]

theorem applyRel_append (l1 l2 : List (Nat × Bool)) (st : Bool × Bool) :
    applyRel st (l1 ++ l2) = applyRel (applyRel st l1) l2 := by
  simp [applyRel]

/-- Relay correctness of one dispatch step from a state satisfying the
invariant: the invariant is preserved, the emitted relay writes are safe
from the current levels, and the final levels match the new state. -/
def RelOK (s t : SysState) (evs : List Event) : Prop :=
  relInv t ∧
  relTrace (s.rel1, s.rel2) (relEvents evs) = true ∧
  applyRel (s.rel1, s.rel2) (relEvents evs) = (t.rel1, t.rel2)

theorem relOK_startup (s : SysState) (h : relInv s) :
    RelOK s (startupSequence s).1 (startupSequence s).2 := by
  obtain ⟨h1, h2⟩ := h
  by_cases ha : s.systemAwake <;>
    simp [startupSequence, RelOK, relInv, relEvents, relTrace, relCond,
      relStep, applyRel, ha, h1, h2]

theorem relOK_shutdown (s : SysState) (h : relInv s) :
    RelOK s (shutDownSequence s).1 (shutDownSequence s).2 := by
  obtain ⟨h1, h2⟩ := h
  by_cases ha : s.systemAwake <;>
    simp [shutDownSequence, RelOK, relInv, relEvents, relTrace, relCond,
      relStep, applyRel, ha, h1, h2]

/-- `RelOK` phrased on the full result triple of a dispatch function. -/
def RelOKr (s : SysState) (r : SysState × List Event × Bool) : Prop :=
  RelOK s r.1 r.2.1

theorem relOK_pure {s t : SysState} {evs : List Event} (h : relInv s)
    (he : relEvents evs = []) (hr1 : t.rel1 = s.rel1) (hr2 : t.rel2 = s.rel2)
    (hw : t.systemAwake = s.systemAwake) : RelOK s t evs := by
  refine ⟨⟨?_, ?_⟩, ?_, ?_⟩ <;>
    simp [relInv, hr1, hr2, hw, he, h.1, h.2, relTrace, applyRel]

theorem relOK_ite {p : Prop} [Decidable p] {s : SysState}
    {a b : SysState × List Event × Bool}
    (ha : p → RelOKr s a) (hb : ¬p → RelOKr s b) :
    RelOKr s (if p then a else b) := by
  by_cases hp : p
  · simpa [hp] using ha hp
  · simpa [hp] using hb hp

set_option maxHeartbeats 1000000 in
theorem relOK_processCommand (c : Char) (s : SysState) (h : relInv s) :
    RelOKr s (processCommand c s) := by
  have hs := relOK_startup s h
  have hd := relOK_shutdown s h
  unfold processCommand
  repeat' (apply relOK_ite <;> intro hc)
  all_goals
    first
      | exact relOK_pure h rfl rfl rfl rfl
      | exact hs
      | exact hd

set_option maxHeartbeats 1000000 in
theorem relOK_processMessage (m : List Char) (s : SysState) (h : relInv s) :
    RelOKr s (processMessage m s) := by
  unfold processMessage
  dsimp only
  repeat'
    first
      | exact relOK_processCommand _ s h
      | (apply relOK_ite <;> intro hc)
  all_goals exact relOK_pure h rfl rfl rfl rfl

theorem relOK_step (s : SysState) (i : Input) (h : relInv s) :
    RelOK s (step s i).1 (step s i).2 := by
  cases i with
  | cmd c => exact relOK_processCommand c s h
  | msg m => exact relOK_processMessage m s h

theorem relOK_run (l : List Input) (s : SysState) (h : relInv s) :
    RelOK s (run s l).1 (run s l).2 := by
  induction l generalizing s with
  | nil => simpa [run, RelOK, relEvents, relTrace, applyRel] using h
  | cons i rest ih =>
    obtain ⟨hinv1, htr1, hap1⟩ := relOK_step s i h
    obtain ⟨hinv2, htr2, hap2⟩ := ih (step s i).1 hinv1
    refine ⟨hinv2, ?_, ?_⟩
    · simp only [run, relEvents, List.filterMap_append, relTrace_append]
      rw [show (relEvents (step s i).2 : List (Nat × Bool)) =
        List.filterMap _ (step s i).2 from rfl] at htr1 hap1
      rw [htr1, hap1]
      simpa [relEvents] using htr2
    · simp only [run, relEvents, List.filterMap_append, applyRel_append]
      rw [show (relEvents (step s i).2 : List (Nat × Bool)) =
        List.filterMap _ (step s i).2 from rfl] at hap1
      rw [hap1]
      simpa [relEvents] using hap2

/-- C1.  For every sequence of received commands and framed messages,
starting from the boot state with both relays deasserted, the trace of
relay writes never asserts the speaker relay `REL_2` while the amplifier
relay `REL_1` is deasserted, and never deasserts `REL_1` while `REL_2` is
asserted. -/
theorem relay_ordering_invariant (pid : Nat) (inputs : List Input) :
    relTrace (false, false) (relEvents (run (bootState pid) inputs).2) = true := by
  have h : relInv (bootState pid) := by simp [relInv, bootState]
  have := (relOK_run inputs (bootState pid) h).2.1
  simpa [bootState] using this

/-- C2.  The relay sequencer is idempotent: `startupSequence` on an awake
system and `shutDownSequence` on an asleep system perform no side effect at
all (in particular no relay write and no playback stop) and leave the state
unchanged; and from an asleep state a first `startupSequence` emits exactly
the relay transition sequence `[REL_1 on, REL_2 on]` while an immediately
repeated `startupSequence` emits nothing. -/
theorem relay_sequencer_idempotent (s : SysState) :
    (s.systemAwake = true → startupSequence s = (s, [])) ∧
    (s.systemAwake = false → shutDownSequence s = (s, [])) ∧
    (s.systemAwake = false →
      relEvents (startupSequence s).2 = [(1, true), (2, true)] ∧
      startupSequence (startupSequence s).1 = ((startupSequence s).1, [])) := by
  refine ⟨fun h1 => ?_, fun h2 => ?_, fun h2 => ⟨?_, ?_⟩⟩
  · simp [startupSequence, h1]
  · simp [shutDownSequence, h2]
  · simp [startupSequence, h2, relEvents]
  · simp [startupSequence, h2]

theorem relay_sequencer_idempotent_witness :
    startupSequence (startupSequence (bootState 1)).1 =
      ((startupSequence (bootState 1)).1, []) ∧
    shutDownSequence (bootState 1) = (bootState 1, []) :=
  ⟨((relay_sequencer_idempotent (bootState 1)).2.2 rfl).2,
   (relay_sequencer_idempotent (bootState 1)).2.1 rfl⟩

/-- C3 counterexample.  The framed serial bytes `":play;"` do NOT produce
the `PLAY` transition: `receiveSerialMessage` stores the `';'` terminator
in the buffer, so the content compares as `"play;"`, matches no verb, and
leaves the state unchanged, while the command byte `'p'` starts
playback. -/
theorem play_semicolon_message_counterexample :
    receiveSerialMessage ":play;".data (bootState 1) = (bootState 1, [], false) ∧
    (processCommand CMD_PLAY (bootState 1)).1.wavPlaying = true ∧
    (receiveSerialMessage ":play;".data (bootState 1)).1.wavPlaying ≠
      (processCommand CMD_PLAY (bootState 1)).1.wavPlaying := by
  refine ⟨rfl, rfl, by decide⟩

/-- C3 amended.  A follower receiving the framed serial message `":play"`
terminated by a newline (or carriage return, or end of available bytes)
performs exactly the `PLAY` command-byte transition, state and side
effects alike; with the `';'` terminator the semicolon is kept in the
buffer, the verb is not recognized, and no state change occurs (see the
counterexample). -/
theorem play_newline_message_equiv (s : SysState) :
    receiveSerialMessage ":play\n".data s = processCommand CMD_PLAY s ∧
    receiveSerialMessage ":play".data s = processCommand CMD_PLAY s := by
  constructor <;> rfl

/-- First index of an event satisfying `p`. -/
def firstIdxOf (p : Event → Bool) (l : List Event) : Option Nat :=
  l.findIdx? p

/-- Last index of an event satisfying `p`. -/
def lastIdxOf (p : Event → Bool) (l : List Event) : Option Nat :=
  match l.reverse.findIdx? p with
  | some k => some (l.length - 1 - k)
  | none => none

def isIterReset : Event → Bool
  | Event.iterSet 0 => true
  | _ => false

def isRelayWriteEv : Event → Bool
  | Event.relayWrite _ _ => true
  | _ => false

def isWakeBroadcast : Event → Bool
  | Event.sendCmd c => c = CMD_WAKEUP
  | _ => false

/-- The order claimed by C4 for the wake transition: the
`trackIteration := 0` reset strictly before every relay write of the
power-up, and every relay write strictly before the `WAKEUP` broadcast. -/
def claimedWakeOrder (evs : List Event) : Bool :=
  match firstIdxOf isIterReset evs, firstIdxOf isRelayWriteEv evs,
      lastIdxOf isRelayWriteEv evs, firstIdxOf isWakeBroadcast evs with
  | some a, some b, some bl, some c => decide (a < b) && decide (bl < c)
  | _, _, _, _ => false

/-- C4 counterexample.  On the leader's Asleep-to-Awake transition (here:
hour = `START_HOUR`, last known active state `false`, boot state) the
emitted trace broadcasts `WAKEUP` FIRST, then writes the relays, and only
then resets the track-iteration counter, so the order claimed by the spec
(reset, power-up, broadcast) does not hold. -/
theorem wake_transition_order_counterexample :
    (scheduleCheck START_HOUR false (bootState 0)).2.2 =
      [Event.sendCmd CMD_WAKEUP, Event.relayWrite 1 true,
       Event.relayWrite 2 true, Event.iterSet 0,
       Event.ledWrite 0 true, Event.ledWrite 1 true,
       Event.ledWrite 2 true, Event.ledWrite 3 true] ∧
    claimedWakeOrder (scheduleCheck START_HOUR false (bootState 0)).2.2 = false := by
  refine ⟨by decide, by decide⟩

/-- C4 amended.  On the leader's transition from Asleep to Awake the three
actions occur in this order: the `WAKEUP` command is broadcast to the
followers, then the relay power-up is performed, and the track-iteration
counter is reset to 0 as the final step of the power-up (after which the
status display is set to 15). -/
theorem wake_transition_order_amended (hour : Nat) (s : SysState)
    (ha : isActiveHour hour = true) (hs : s.systemAwake = false) :
    (scheduleCheck hour false s).2.2 =
      [Event.sendCmd CMD_WAKEUP, Event.relayWrite 1 true,
       Event.relayWrite 2 true, Event.iterSet 0,
       Event.ledWrite 0 true, Event.ledWrite 1 true,
       Event.ledWrite 2 true, Event.ledWrite 3 true] ∧
    (scheduleCheck hour false s).1.systemAwake = true ∧
    (scheduleCheck hour false s).1.trackIteration = 0 := by
  simp [scheduleCheck, ha, hs, startupSequence, displayBinaryCode,
    setLedPattern]

theorem wake_transition_order_amended_witness :
    (scheduleCheck 8 false (bootState 0)).2.2 =
      [Event.sendCmd CMD_WAKEUP, Event.relayWrite 1 true,
       Event.relayWrite 2 true, Event.iterSet 0,
       Event.ledWrite 0 true, Event.ledWrite 1 true,
       Event.ledWrite 2 true, Event.ledWrite 3 true] ∧
    (scheduleCheck 8 false (bootState 0)).1.systemAwake = true ∧
    (scheduleCheck 8 false (bootState 0)).1.trackIteration = 0 :=
  wake_transition_order_amended 8 (bootState 0) (by decide) rfl

/-- C5.  At a due leader schedule poll: the active state is computed as
`START_HOUR <= hour < END_HOUR`; the new `lastActiveState` always records
it; side effects (relay sequencer, `WAKEUP`/`SLEEP` broadcast, display)
happen only when the computed state differs from the last known one; on
such a change the system's awake state becomes the computed active state,
and when nothing changed the poll is a complete no-op. -/
theorem schedule_debounce (hour : Nat) (lastActive : Bool) (s : SysState) :
    (isActiveHour hour = decide (START_HOUR ≤ hour ∧ hour < END_HOUR)) ∧
    ((scheduleCheck hour lastActive s).2.2 ≠ [] → isActiveHour hour ≠ lastActive) ∧
    ((scheduleCheck hour lastActive s).2.1 = isActiveHour hour) ∧
    (isActiveHour hour ≠ lastActive →
      (scheduleCheck hour lastActive s).1.systemAwake = isActiveHour hour) ∧
    (isActiveHour hour = lastActive →
      scheduleCheck hour lastActive s = (s, lastActive, [])) := by
  refine ⟨?_, ?_, ?_, ?_, ?_⟩
  · by_cases h1 : START_HOUR ≤ hour <;> by_cases h2 : hour < END_HOUR <;>
      simp [isActiveHour, h1, h2]
  · intro hne
    by_cases hcase : isActiveHour hour = lastActive
    · exact absurd (by simp [scheduleCheck, hcase]) hne
    · exact hcase
  · cases hact : isActiveHour hour <;> cases hl : lastActive <;>
      by_cases haw : s.systemAwake <;>
      simp [scheduleCheck, hact, hl, haw, startupSequence,
        shutDownSequence, displayBinaryCode, setLedPattern]
  · intro hne
    cases hact : isActiveHour hour <;> cases hl : lastActive <;>
      by_cases haw : s.systemAwake <;>
      simp_all [scheduleCheck, startupSequence, shutDownSequence,
        displayBinaryCode, setLedPattern]
  · intro heq
    simp [scheduleCheck, heq]

theorem schedule_debounce_witness :
    (scheduleCheck 8 false (bootState 0)).1.systemAwake = isActiveHour 8 ∧
    scheduleCheck 7 false (bootState 0) = (bootState 0, false, []) ∧
    (scheduleCheck 10 true (bootState 0)).2.2 = [] :=
  ⟨(schedule_debounce 8 false (bootState 0)).2.2.2.1 (by decide),
   (schedule_debounce 7 false (bootState 0)).2.2.2.2 (by decide),
   by
    have := (schedule_debounce 10 true (bootState 0)).2.2.2.2 (by decide)
    simp [this]⟩

theorem enumFrom_mem_bound {α : Type _} (l : List α) (n : Nat) (w : Nat × α)
    (h : w ∈ l.enumFrom n) : n ≤ w.1 ∧ w.1 < n + l.length := by
  induction l generalizing n with
  | nil => simp [List.enumFrom] at h
  | cons a as ih =>
    rw [List.enumFrom_cons] at h
    rcases List.mem_cons.mp h with rfl | h2
    · simp
    · have := ih (n + 1) h2
      simp only [List.length_cons]
      omega

theorem accumLoop_no_term (l : List Char) (idx : Nat) (hidx : idx ≤ 511)
    (hlong : 511 - idx ≤ l.length)
    (hterm : ∀ c ∈ l, c ≠ '\n' ∧ c ≠ '\r' ∧ c ≠ ';') :
    accumLoop l idx = ((l.take (511 - idx)).enumFrom idx, 511) := by
  induction l generalizing idx with
  | nil =>
    simp only [List.length_nil, Nat.le_zero] at hlong
    have h511 : idx = 511 := by omega
    subst h511
    rw [accumLoop]
    simp [MSG_BUFFER_SIZE]
  | cons c rest ih =>
    by_cases h5 : 511 ≤ idx
    · have h511 : idx = 511 := by omega
      subst h511
      rw [accumLoop]
      simp [MSG_BUFFER_SIZE]
    · obtain ⟨hn, hr, hsemi⟩ := hterm c (List.mem_cons_self c rest)
      rw [accumLoop]
      rw [if_neg (by simp only [MSG_BUFFER_SIZE]; omega)]
      rw [if_neg (by simp [hn, hr]), if_neg hsemi]
      rw [ih (idx + 1) (by omega) (by simp at hlong ⊢; omega)
        (fun d hd => hterm d (List.mem_cons_of_mem c hd))]
      rw [show 511 - idx = (511 - (idx + 1)) + 1 from by omega,
        List.take_succ_cons, List.enumFrom_cons]

/-- C6.  When 600 bytes with no terminator arrive at `checkUsbMessages`
(the first being the `':'` that enters message mode), the receiver writes
only buffer indices `0..511`: the first 511 input bytes (`input.take 511`,
stored at their own indices `0..510`) plus the null terminator at index
511; nothing is written at or past index 512 = `MSG_BUFFER_SIZE`, and the
truncated buffer is still dispatched to `processMessage`. -/
theorem message_buffer_truncation (input : List Char)
    (hlen : input.length = 600)
    (hhead : input.head? = some ':')
    (hterm : ∀ c ∈ input, c ≠ '\n' ∧ c ≠ '\r' ∧ c ≠ ';') :
    (checkUsbMessagesWrites input).2 = true ∧
    (∀ w ∈ (checkUsbMessagesWrites input).1, w.1 < MSG_BUFFER_SIZE) ∧
    (checkUsbMessagesWrites input).1 =
      (input.take 511).enum ++ [(511, Char.ofNat 0)] := by
  cases input with
  | nil => simp at hlen
  | cons c rest =>
    have hc : c = ':' := by simpa using hhead
    subst hc
    have hr : rest.length = 599 := by simpa using hlen
    have ha := accumLoop_no_term rest 1 (by omega) (by omega)
      (fun d hd => hterm d (List.mem_cons_of_mem _ hd))
    have h1 : (':' :: rest).take 511 = ':' :: rest.take 510 := rfl
    have h2 : (511 : Nat) - 1 = 510 := rfl
    have hmain : (checkUsbMessagesWrites (':' :: rest)).1 =
        ((':' :: rest).take 511).enum ++ [(511, Char.ofNat 0)] := by
      rw [checkUsbMessagesWrites, if_pos rfl]
      dsimp only
      rw [ha]
      dsimp only
      rw [h1, List.enum_cons, h2]
    refine ⟨by rw [checkUsbMessagesWrites]; simp, ?_, hmain⟩
    intro w hw
    rw [hmain] at hw
    rcases List.mem_append.mp hw with hw1 | hw1
    · have hb := enumFrom_mem_bound _ 0 w hw1
      have hlt : ((':' :: rest).take 511).length ≤ 511 := by
        rw [List.length_take]
        omega
      simp only [MSG_BUFFER_SIZE]
      omega
    · have : w = (511, Char.ofNat 0) := by simpa using hw1
      subst this
      simp only [MSG_BUFFER_SIZE]
      omega

/-- A concrete 600-byte terminator-free input. -/
def longInput : List Char := ':' :: List.replicate 599 'a'

theorem message_buffer_truncation_witness :
    (checkUsbMessagesWrites longInput).2 = true ∧
    (∀ w ∈ (checkUsbMessagesWrites longInput).1, w.1 < MSG_BUFFER_SIZE) ∧
    (checkUsbMessagesWrites longInput).1 =
      (longInput.take 511).enum ++ [(511, Char.ofNat 0)] :=
  message_buffer_truncation longInput
    (by rw [longInput, List.length_cons, List.length_replicate])
    rfl
    (by
      intro c hc
      simp only [longInput, List.mem_cons, List.mem_replicate] at hc
      rcases hc with rfl | ⟨_, rfl⟩ <;> exact ⟨by decide, by decide, by decide⟩)

/-- C7.  The leader's STATUS parser on `"STATUS|2|23.5|1|0|0|0"` extracts
id = 2, temp = 23.5, awake = true, playing = false (and posMs = lenMs =
0), field by field on the `'|'` delimiter; every message whose content
starts with `"STATUS|"` is processed without changing any system state and
without failure (the branch returns true); and for a short or malformed
status message the parse stops at the first missing field (every field at
or past the token count is absent). -/
theorem status_message_parse (s : SysState) (t content : List Char)
    (i : Fin 6)
    (hshort : (tokenize (content.drop 7) []).length ≤ (i : Nat)) :
    parseStatus "STATUS|2|23.5|1|0|0|0".data =
      { followerId := some 2, followerTemp := some (47 / 2 : ℚ),
        followerAwake := some true, followerPlaying := some false,
        followerPosition := some 0, followerLength := some 0 } ∧
    processMessage (':' :: ("STATUS|".data ++ t)) s = (s, [], true) ∧
    statusFieldMissing (parseStatus content) i = true := by
  refine ⟨?_, ?_, ?_⟩
  · have h1 : parseStatus "STATUS|2|23.5|1|0|0|0".data =
        { followerId := some 2, followerTemp := some (atof ['2', '3', '.', '5']),
          followerAwake := some true, followerPlaying := some false,
          followerPosition := some 0, followerLength := some 0 } := rfl
    rw [h1]
    have h3 : atof ['2', '3', '.', '5'] =
        ((23 : Nat) : ℚ) + ((5 : Nat) : ℚ) / 10 ^ (1 : Nat) := rfl
    have h2 : atof ['2', '3', '.', '5'] = 47 / 2 := by
      rw [h3]
      push_cast
      norm_num
    rw [h2]
  · have hmsg : (':' : Char) :: ("STATUS|".data ++ t) =
        ':' :: 'S' :: 'T' :: 'A' :: 'T' :: 'U' :: 'S' :: '|' :: t := rfl
    have hS : ∀ (v : List Char), v.head? ≠ some 'S' →
        ('S' :: 'T' :: 'A' :: 'T' :: 'U' :: 'S' :: '|' :: t) ≠ v := by
      intro v hv h
      rw [← h] at hv
      exact hv rfl
    rw [hmsg, processMessage]
    dsimp only
    rw [show msgContent (':' :: 'S' :: 'T' :: 'A' :: 'T' :: 'U' :: 'S' :: '|' :: t) =
      'S' :: 'T' :: 'A' :: 'T' :: 'U' :: 'S' :: '|' :: t from rfl]
    rw [if_neg (hS [] (by decide)), if_neg (hS _ (by decide)),
      if_neg (hS _ (by decide)), if_neg (hS _ (by decide)),
      if_neg (hS _ (by decide)),
      if_pos (show ('S' :: 'T' :: 'A' :: 'T' :: 'U' :: 'S' :: '|' :: t).take 7 =
        "STATUS|".data from rfl)]
  · have hnone : (tokenize (content.drop 7) [])[(i : Nat)]? = none :=
      List.getElem?_eq_none hshort
    revert hnone
    fin_cases i <;> intro hnone <;>
      simp [parseStatus, statusFieldMissing, hnone]

theorem status_message_parse_witness :
    parseStatus "STATUS|2|23.5|1|0|0|0".data =
      { followerId := some 2, followerTemp := some (47 / 2 : ℚ),
        followerAwake := some true, followerPlaying := some false,
        followerPosition := some 0, followerLength := some 0 } ∧
    processMessage (':' :: ("STATUS|".data ++ [])) (bootState 0) =
      (bootState 0, [], true) ∧
    statusFieldMissing (parseStatus "STATUS|2".data) ⟨3, by omega⟩ = true :=
  status_message_parse (bootState 0) [] "STATUS|2".data ⟨3, by omega⟩ (by decide)

theorem writeOutPWM_rangePWM (period now : Nat) (avail : Bool) (env : ℚ)
    (s : SysState) :
    (writeOutPWM period now avail env s).1.rangePWM = s.rangePWM := by
  rw [writeOutPWM]
  split_ifs <;> rfl

theorem writeOutPWM_eq_write (period now : Nat) (env : ℚ) (s : SysState)
    (h : period ≤ now - s.pwmTimerStart) :
    writeOutPWM period now true env s =
      ({ s with pwmTimerStart := now, pwmOut := ⌊env * (s.rangePWM : ℚ)⌋ },
       [Event.pwmWrite ⌊env * (s.rangePWM : ℚ)⌋]) := by
  rw [writeOutPWM, if_pos h, if_pos rfl]

theorem writeOutPWM_eq_reset (period now : Nat) (env : ℚ) (s : SysState)
    (h : period ≤ now - s.pwmTimerStart) :
    writeOutPWM period now false env s =
      ({ s with pwmTimerStart := now }, []) := by
  rw [writeOutPWM, if_pos h, if_neg (by simp)]

theorem writeOutPWM_eq_skip (period now : Nat) (avail : Bool) (env : ℚ)
    (s : SysState) (h : ¬ period ≤ now - s.pwmTimerStart) :
    writeOutPWM period now avail env s = (s, []) := by
  rw [writeOutPWM, if_neg h]

theorem runPWM_spec (period : Nat) (calls : List (Nat × Bool × ℚ))
    (s : SysState)
    (hmono : calls.Pairwise (fun a b => a.1 ≤ b.1))
    (hstart : ∀ c ∈ calls, s.pwmTimerStart ≤ c.1) :
    ((runPWM period s calls).2.Chain' (fun a b => a.1 + period ≤ b.1)) ∧
    (∀ w ∈ (runPWM period s calls).2, s.pwmTimerStart + period ≤ w.1) ∧
    (∀ w ∈ (runPWM period s calls).2,
      ∃ c ∈ calls, c.1 = w.1 ∧ c.2.1 = true ∧
        w.2 = ⌊c.2.2 * (s.rangePWM : ℚ)⌋) := by
  induction calls generalizing s with
  | nil => simp [runPWM]
  | cons c rest ih =>
    obtain ⟨t, av, env⟩ := c
    obtain ⟨hmc, hmrest⟩ := List.pairwise_cons.mp hmono
    have hsc := hstart (t, av, env) (List.mem_cons_self _ rest)
    dsimp only at hsc
    rw [runPWM]
    dsimp only
    by_cases hg : period ≤ t - s.pwmTimerStart
    · cases av with
      | true =>
        rw [writeOutPWM_eq_write period t env s hg]
        dsimp only
        rw [List.filterMap_cons]
        dsimp only
        rw [List.filterMap_nil]
        obtain ⟨ch, lb, mp⟩ := ih
          ({ s with pwmTimerStart := t, pwmOut := ⌊env * (s.rangePWM : ℚ)⌋ })
          hmrest (fun d hd => hmc d hd)
        refine ⟨?_, ?_, ?_⟩
        · refine List.chain'_cons'.mpr ⟨?_, ch⟩
          intro w hw
          have hmem := List.mem_of_mem_head? hw
          have hlb := lb w hmem
          dsimp only at hlb
          dsimp only
          omega
        · intro w hw
          rcases List.mem_cons.mp hw with rfl | hw2
          · dsimp only
            omega
          · have hlb := lb w hw2
            dsimp only at hlb
            omega
        · intro w hw
          rcases List.mem_cons.mp hw with rfl | hw2
          · exact ⟨(t, true, env), List.mem_cons_self _ rest, rfl, rfl, rfl⟩
          · obtain ⟨d, hd, h1, h2, h3⟩ := mp w hw2
            exact ⟨d, List.mem_cons_of_mem _ hd, h1, h2, h3⟩
      | false =>
        rw [writeOutPWM_eq_reset period t env s hg]
        dsimp only
        rw [List.filterMap_nil, List.nil_append]
        obtain ⟨ch, lb, mp⟩ := ih ({ s with pwmTimerStart := t })
          hmrest (fun d hd => hmc d hd)
        refine ⟨ch, ?_, ?_⟩
        · intro w hw
          have hlb := lb w hw
          dsimp only at hlb
          omega
        · intro w hw
          obtain ⟨d, hd, h1, h2, h3⟩ := mp w hw
          exact ⟨d, List.mem_cons_of_mem _ hd, h1, h2, h3⟩
    · rw [writeOutPWM_eq_skip period t av env s hg]
      dsimp only
      rw [List.filterMap_nil, List.nil_append]
      obtain ⟨ch, lb, mp⟩ := ih s hmrest
        (fun d hd => hstart d (List.mem_cons_of_mem _ hd))
      refine ⟨ch, lb, ?_⟩
      intro w hw
      obtain ⟨d, hd, h1, h2, h3⟩ := mp w hw
      exact ⟨d, List.mem_cons_of_mem _ hd, h1, h2, h3⟩

/-- C8.  Over any monotone call sequence of the envelope-to-PWM driver
(each call: wall-clock ms, sample-available flag, envelope sample), the PWM
output is written at most once per period -- consecutive writes are at
least `period` ms apart -- and every written value is `int(env * rangePWM)`
for that call's sample; when the sample is in `[0,1]` and `rangePWM` in
`[0,255]` the written value lies in `[0,255]` and so equals its clamp to
`[0,255]`. -/
theorem pwm_rate_limit (period : Nat) (s : SysState)
    (calls : List (Nat × Bool × ℚ))
    (hmono : calls.Pairwise (fun a b => a.1 ≤ b.1))
    (hstart : ∀ c ∈ calls, s.pwmTimerStart ≤ c.1)
    (henv : ∀ c ∈ calls, 0 ≤ c.2.2 ∧ c.2.2 ≤ 1)
    (hrange : 0 ≤ s.rangePWM ∧ s.rangePWM ≤ 255) :
    ((runPWM period s calls).2.Chain' (fun a b => a.1 + period ≤ b.1)) ∧
    (∀ w ∈ (runPWM period s calls).2,
      ∃ c ∈ calls, c.1 = w.1 ∧ c.2.1 = true ∧
        w.2 = ⌊c.2.2 * (s.rangePWM : ℚ)⌋ ∧
        0 ≤ w.2 ∧ w.2 ≤ 255 ∧ w.2 = max 0 (min 255 w.2)) := by
  obtain ⟨ch, _, mp⟩ := runPWM_spec period calls s hmono hstart
  refine ⟨ch, ?_⟩
  intro w hw
  obtain ⟨c, hc, h1, h2, h3⟩ := mp w hw
  obtain ⟨he0, he1⟩ := henv c hc
  have hr0 : (0 : ℚ) ≤ (s.rangePWM : ℚ) := by exact_mod_cast hrange.1
  have hnn : (0 : ℚ) ≤ c.2.2 * (s.rangePWM : ℚ) := mul_nonneg he0 hr0
  have hub : c.2.2 * (s.rangePWM : ℚ) ≤ 255 := by
    calc c.2.2 * (s.rangePWM : ℚ) ≤ 1 * 255 :=
          mul_le_mul he1 (by exact_mod_cast hrange.2) hr0 zero_le_one
      _ = 255 := by norm_num
  have hge : 0 ≤ w.2 := by
    rw [h3]
    exact Int.le_floor.mpr (by exact_mod_cast hnn)
  have hle : w.2 ≤ 255 := by
    rw [h3]
    have hf := Int.floor_le_floor hub
    simpa using hf
  exact ⟨c, hc, h1, h2, h3, hge, hle, by omega⟩

theorem pwm_rate_limit_witness :
    ((runPWM 25 (bootState 0) [(25, true, 1), (30, true, 0), (50, true, 1)]).2.Chain'
      (fun a b => a.1 + 25 ≤ b.1)) ∧
    (∀ w ∈ (runPWM 25 (bootState 0) [(25, true, 1), (30, true, 0), (50, true, 1)]).2,
      ∃ c ∈ [((25 : Nat), true, (1 : ℚ)), (30, true, 0), (50, true, 1)],
        c.1 = w.1 ∧ c.2.1 = true ∧
        w.2 = ⌊c.2.2 * (((bootState 0).rangePWM : Int) : ℚ)⌋ ∧
        0 ≤ w.2 ∧ w.2 ≤ 255 ∧ w.2 = max 0 (min 255 w.2)) :=
  pwm_rate_limit 25 (bootState 0) [(25, true, 1), (30, true, 0), (50, true, 1)]
    (by simp)
    (by intro c hc; simp [List.mem_cons] at hc;
        rcases hc with rfl | rfl | rfl <;> simp [bootState])
    (by intro c hc; simp [List.mem_cons] at hc;
        rcases hc with rfl | rfl | rfl <;> exact ⟨by simp, by simp⟩)
    ⟨by decide, by decide⟩

/-- C9.  `displayBinaryCode` performs no LED write at all for any integer
code outside `0..15` (all four indicator outputs keep their previous
values, the state is untouched), and for every code in `0..15` it writes
all four outputs with the code's 4-bit binary representation, MSB on
`LED_ARRAY[0]`. -/
theorem display_binary_code_guard (code : Int) (s : SysState) :
    (code < 0 ∨ 15 < code → displayBinaryCode code s = (s, [])) ∧
    (0 ≤ code → code ≤ 15 →
      displayBinaryCode code s =
        ({ s with led1 := code.toNat.testBit 3, led2 := code.toNat.testBit 2,
                  led3 := code.toNat.testBit 1, led4 := code.toNat.testBit 0 },
         [Event.ledWrite 0 (code.toNat.testBit 3),
          Event.ledWrite 1 (code.toNat.testBit 2),
          Event.ledWrite 2 (code.toNat.testBit 1),
          Event.ledWrite 3 (code.toNat.testBit 0)])) := by
  constructor
  · intro h
    rw [displayBinaryCode, if_neg (by omega)]
  · intro h1 h2
    interval_cases code <;>
      simp [displayBinaryCode, setLedPattern, Nat.testBit]

theorem display_binary_code_guard_witness :
    displayBinaryCode 16 (bootState 0) = (bootState 0, []) ∧
    displayBinaryCode (-1) (bootState 0) = (bootState 0, []) ∧
    displayBinaryCode 9 (bootState 0) =
      ({ (bootState 0) with led1 := (9 : Int).toNat.testBit 3,
                            led2 := (9 : Int).toNat.testBit 2,
                            led3 := (9 : Int).toNat.testBit 1,
                            led4 := (9 : Int).toNat.testBit 0 },
       [Event.ledWrite 0 ((9 : Int).toNat.testBit 3),
        Event.ledWrite 1 ((9 : Int).toNat.testBit 2),
        Event.ledWrite 2 ((9 : Int).toNat.testBit 1),
        Event.ledWrite 3 ((9 : Int).toNat.testBit 0)]) :=
  ⟨(display_binary_code_guard 16 (bootState 0)).1 (Or.inr (by decide)),
   (display_binary_code_guard (-1) (bootState 0)).1 (Or.inl (by decide)),
   (display_binary_code_guard 9 (bootState 0)).2 (by decide) (by decide)⟩

/-- C10.  On every display-update tick of either role's control loop, if
the unit is not awake then any active playback is stopped
(`wavPlayer.stop()` is issued and the playing flag is cleared) and the PWM
output is driven to zero; yet `processCommand(CMD_PLAY)` starts playback
unconditionally, even from an asleep state, so such playback survives only
until the next tick. -/
theorem asleep_tick_stops_playback (period now : Nat) (avail : Bool)
    (env knobRaw : ℚ) (s : SysState) (hs : s.systemAwake = false) :
    (leaderDisplayTick period now avail env knobRaw s).1.wavPlaying = false ∧
    (leaderDisplayTick period now avail env knobRaw s).1.pwmOut = 0 ∧
    (followerDisplayTick period now avail env s).1.wavPlaying = false ∧
    (followerDisplayTick period now avail env s).1.pwmOut = 0 ∧
    (s.wavPlaying = true →
      Event.playerStop ∈ (leaderDisplayTick period now avail env knobRaw s).2 ∧
      Event.playerStop ∈ (followerDisplayTick period now avail env s).2) ∧
    (∀ t : SysState, (processCommand CMD_PLAY t).1.wavPlaying = true) := by
  refine ⟨?_, ?_, ?_, ?_, fun hp => ⟨?_, ?_⟩, fun t => ?_⟩
  · by_cases hp : s.wavPlaying <;>
      simp [leaderDisplayTick, hs, hp, displayBinaryCode, setLedPattern]
  · by_cases hp : s.wavPlaying <;>
      simp [leaderDisplayTick, hs, hp, displayBinaryCode, setLedPattern]
  · by_cases hp : s.wavPlaying <;>
      simp [followerDisplayTick, hs, hp, displayBinaryCode, setLedPattern]
  · by_cases hp : s.wavPlaying <;>
      simp [followerDisplayTick, hs, hp, displayBinaryCode, setLedPattern]
  · simp [leaderDisplayTick, hs, hp, displayBinaryCode, setLedPattern]
  · simp [followerDisplayTick, hs, hp, displayBinaryCode, setLedPattern]
  · rw [processCommand]
    rw [if_neg (by decide), if_neg (by decide), if_neg (by decide),
      if_neg (by decide), if_pos rfl]
    rfl

theorem asleep_tick_stops_playback_witness :
    (leaderDisplayTick 25 0 false 0 0
      ((processCommand CMD_PLAY (bootState 1)).1)).1.wavPlaying = false ∧
    (leaderDisplayTick 25 0 false 0 0
      ((processCommand CMD_PLAY (bootState 1)).1)).1.pwmOut = 0 ∧
    (followerDisplayTick 25 0 false 0
      ((processCommand CMD_PLAY (bootState 1)).1)).1.wavPlaying = false ∧
    (followerDisplayTick 25 0 false 0
      ((processCommand CMD_PLAY (bootState 1)).1)).1.pwmOut = 0 ∧
    ((processCommand CMD_PLAY (bootState 1)).1.wavPlaying = true →
      Event.playerStop ∈ (leaderDisplayTick 25 0 false 0 0
        ((processCommand CMD_PLAY (bootState 1)).1)).2 ∧
      Event.playerStop ∈ (followerDisplayTick 25 0 false 0
        ((processCommand CMD_PLAY (bootState 1)).1)).2) ∧
    (∀ t : SysState, (processCommand CMD_PLAY t).1.wavPlaying = true) :=
  asleep_tick_stops_playback 25 0 false 0 0
    ((processCommand CMD_PLAY (bootState 1)).1) rfl

end SuuretMuinaiset
